import Mathlib

/-!
Shallow embedding of the lowerthird-microservice renderer
(lowerthird_service.py) and its render pipeline, with theorems checking
the specification's claims against it.

Conventions of the embedding:
* Python floats are idealised as exact rationals (ℚ); the two places the
  source evaluates a transcendental function (math.sin in the animated
  background, the sine easing in the logo's glow phase) are factored into
  separate real-valued definitions so the rest of the frame model stays
  executable.
* Python int() is truncation toward zero (pyInt below).
* A rendered frame is modelled by the symbolic description of every
  element the source paints (which branch was taken and with which
  computed parameters), not by the final pixel raster.
* The video-writer side effects of generate_lowerthird are modelled as an
  event trace (makedirs, open, per-frame write, release); whether the
  cv2 writer opens and whether a frame raises are external parameters.
-/

namespace Lowerthird

/-- Python int() on an exact rational: truncation toward zero. -/
def pyInt (q : ℚ) : ℤ := if q < 0 then -(Int.floor (-q)) else Int.floor q

/-- Python int() on a real: truncation toward zero. -/
noncomputable def pyIntR (x : ℝ) : ℤ := if x < 0 then -(Int.floor (-x)) else Int.floor x

/-- Python str.split() with no argument: split on whitespace, dropping empty
pieces (one run of whitespace counts as a single separator). -/
def pySplit (s : String) : List String :=
  ((s.data.splitOnP Char.isWhitespace).filter (fun w => w ≠ [])).map
    (fun w => String.mk w)

/-- An RGB triple, one channel per field, 0 to 255 each. -/
structure Color where
  r : ℤ
  g : ℤ
  b : ℤ
deriving DecidableEq

/-- One entry of the DataDash style table: the six named colors. -/
structure Palette where
  primary : Color
  secondary : Color
  accent : Color
  white : Color
  dark : Color
  background : Color
deriving DecidableEq

/-- The cloud_blue palette from DataDashRenderer.__init__. -/
def cloud_blue : Palette :=
  { primary := ⟨48, 127, 226⟩, secondary := ⟨30, 90, 180⟩, accent := ⟨200, 220, 255⟩,
    white := ⟨255, 255, 255⟩, dark := ⟨20, 40, 80⟩, background := ⟨0, 0, 0⟩ }

/-- The secure_red palette from DataDashRenderer.__init__. -/
def secure_red : Palette :=
  { primary := ⟨218, 41, 28⟩, secondary := ⟨160, 30, 20⟩, accent := ⟨255, 180, 170⟩,
    white := ⟨255, 255, 255⟩, dark := ⟨80, 15, 10⟩, background := ⟨0, 0, 0⟩ }

/-- The sase_purple palette from DataDashRenderer.__init__. -/
def sase_purple : Palette :=
  { primary := ⟨144, 99, 205⟩, secondary := ⟨100, 70, 150⟩, accent := ⟨200, 180, 230⟩,
    white := ⟨255, 255, 255⟩, dark := ⟨40, 30, 80⟩, background := ⟨0, 0, 0⟩ }

/-- The connectivity_yellow palette from DataDashRenderer.__init__. -/
def connectivity_yellow : Palette :=
  { primary := ⟨255, 185, 0⟩, secondary := ⟨200, 145, 0⟩, accent := ⟨255, 230, 150⟩,
    white := ⟨255, 255, 255⟩, dark := ⟨80, 60, 0⟩, background := ⟨0, 0, 0⟩ }

/-- The self.colors dict of DataDashRenderer.__init__, as an association list. -/
def colorsTable : List (String × Palette) :=
  [("cloud_blue", cloud_blue), ("secure_red", secure_red),
   ("sase_purple", sase_purple), ("connectivity_yellow", connectivity_yellow)]

/-- self.colors.get(style, self.colors["cloud_blue"]) : dict lookup with the
cloud_blue entry as the default for unknown identifiers. -/
def resolveStyle (style : String) : Palette :=
  (colorsTable.lookup style).getD cloud_blue

/-- The renderer object: the fields DataDashRenderer.__init__ sets on self. -/
structure DataDashRenderer where
  width : ℕ
  height : ℕ
  fps : ℚ
  style : String
  current_colors : Palette
deriving DecidableEq

/-- DataDashRenderer.__init__(style): fixed 1920x1080 at 30 fps, palette
resolved through the colors table with cloud_blue fallback. -/
def DataDashRenderer.init (style : String) : DataDashRenderer :=
  { width := 1920, height := 1080, fps := 30, style := style,
    current_colors := resolveStyle style }

/-- ease_out_quart(t) = 1 - (1 - t)^4. -/
def ease_out_quart (t : ℚ) : ℚ := 1 - (1 - t) ^ 4

/-- ease_in_out_sine(t) = -(cos(pi*t) - 1) / 2. -/
noncomputable def ease_in_out_sine (t : ℝ) : ℝ := -(Real.cos (Real.pi * t) - 1) / 2

/-- Vertical wave offset of the animated background:
y_offset = int(100 * sin((t*2 + i) * pi)). -/
noncomputable def waveYOffset (t : ℚ) (i : ℕ) : ℤ :=
  pyIntR (100 * Real.sin (((t : ℝ) * 2 + (i : ℝ)) * Real.pi))

/-- Wave line position: y_pos = height - 200 + y_offset + i*40 with height 1080. -/
noncomputable def waveYPos (t : ℚ) (i : ℕ) : ℤ :=
  1080 - 200 + waveYOffset t i + (i : ℤ) * 40

/-- Opacity of one flowing gradient line: int(30 * bg_alpha). -/
def waveLineAlpha (bgAlpha : ℚ) : ℤ := pyInt (30 * bgAlpha)

/-- Per-column opacity of the left edge glow: alpha = int(glow_alpha * (100-x) / 100). -/
def edgeGlowColumnAlpha (glowAlpha : ℤ) (x : ℕ) : ℤ :=
  pyInt ((glowAlpha : ℚ) * (100 - (x : ℚ)) / 100)

/-- Symbolic content of create_premium_background: the wave branch runs only
for t > 0.1 (with bg_alpha = min((t-0.1)/0.3, 0.05)), the edge-glow branch
only for t < 0.8 (with glow_alpha = int(20 * t/0.8)). -/
structure BackgroundDesc where
  waves : Option ℚ
  edgeGlow : Option ℤ
deriving DecidableEq

/-- create_premium_background(width, height, t, colors), reduced to which
branches fire and the opacity parameters they compute. -/
def create_premium_background (t : ℚ) : BackgroundDesc :=
  { waves := if 0.1 < t then some (min ((t - 0.1) / 0.3) 0.05) else none,
    edgeGlow := if t < 0.8 then some (pyInt (20 * (t / 0.8))) else none }

/-- Parameters of the bar as painted inside the bar branch of create_frame. -/
structure BarDesc where
  progress : ℚ
  barWidth : ℤ
  accentAlpha : ℤ
deriving DecidableEq

/-- The three phases of the logo branch of create_frame: glow (logo_t < 0.3),
materialize (logo_t < 0.7), settle (otherwise). -/
inductive LogoPhase where
  | glow (logoT : ℚ)
  | materialize (scaleProgress logoAlpha : ℚ) (currentSize logoX logoY : ℤ)
  | settle (finalAlpha : ℚ)
deriving DecidableEq

/-- Opacity of the phase-1 logo glow halo: ease_in_out_sine(logo_t / 0.3) * 0.3. -/
noncomputable def logoGlowAlpha (logoT : ℚ) : ℝ :=
  ease_in_out_sine ((logoT : ℝ) / 0.3) * 0.3

/-- chars_to_show = int(len(main_title) * ease_out_quart(title_t)) with
title_t = min((t - 0.6) / 0.5, 1.0). -/
def titleCharsToShow (main_title : String) (t : ℚ) : ℤ :=
  pyInt ((main_title.length : ℚ) * ease_out_quart (min ((t - 0.6) / 0.5) 1))

/-- words_to_show = int(len(words) * ease_out_quart(subtitle_t)) with
words = subtitle.split() and subtitle_t = min((t - 0.8) / 0.4, 1.0). -/
def subtitleWordsToShow (subtitle : String) (t : ℚ) : ℤ :=
  pyInt (((pySplit subtitle).length : ℚ) * ease_out_quart (min ((t - 0.8) / 0.4) 1))

/-- Parameters of the painted title text. -/
structure TitleDesc where
  titleT : ℚ
  charsToShow : ℤ
  visible : String
  titleAlpha : ℚ
deriving DecidableEq

/-- Parameters of the painted subtitle text. -/
structure SubtitleDesc where
  subtitleT : ℚ
  wordsToShow : ℤ
  visible : String
  subtitleAlpha : ℚ
deriving DecidableEq

/-- Symbolic description of one rendered frame: for each element of
create_frame, whether its branch fired and the parameters it painted with. -/
structure FrameDesc where
  t : ℚ
  background : BackgroundDesc
  bar : Option BarDesc
  logo : Option LogoPhase
  title : Option TitleDesc
  subtitle : Option SubtitleDesc
  fgGlow : Option ℚ
deriving DecidableEq

/-- DataDashRenderer.create_frame(frame_num, duration, main_title, subtitle),
element by element in source order: total_frames = int(duration * fps),
t = frame_num / total_frames, then the bar window (0.2 < t ≤ 0.7 with
ease_out_quart width), the three-phase logo (t > 0.4), the
character-revealed title (t > 0.6), the word-revealed subtitle (t > 0.8)
and the ambient foreground glow (t > 0.5). -/
def create_frame (r : DataDashRenderer) (frame_num : ℕ) (duration : ℚ)
    (main_title subtitle : String) : FrameDesc :=
  let total_frames := pyInt (duration * r.fps)
  let t : ℚ := (frame_num : ℚ) / (total_frames : ℚ)
  let bar_start : ℚ := 0.2
  let bar_duration : ℚ := 0.5
  let bar := if bar_start < t ∧ t ≤ bar_start + bar_duration then
      let bar_t := (t - bar_start) / bar_duration
      let bar_progress := ease_out_quart bar_t
      some { progress := bar_progress, barWidth := pyInt (650 * bar_progress),
             accentAlpha := pyInt (180 * bar_progress) }
    else none
  let logo_start : ℚ := 0.4
  let logo_duration : ℚ := 0.4
  let logo := if logo_start < t then
      let logo_t := min ((t - logo_start) / logo_duration) 1
      some (if logo_t < 0.3 then
          LogoPhase.glow logo_t
        else if logo_t < 0.7 then
          let material_t := (logo_t - 0.3) / 0.4
          let scale_progress := ease_out_quart material_t
          let current_size := pyInt (75 * (0.8 + 0.2 * scale_progress))
          LogoPhase.materialize scale_progress scale_progress current_size
            (60 - pyInt (((current_size : ℚ) - 75) * 0.5))
            (845 - pyInt (((current_size : ℚ) - 75) * 0.3))
        else
          let settle_t := (logo_t - 0.7) / 0.3
          LogoPhase.settle (0.8 + 0.2 * ease_out_quart settle_t))
    else none
  let title_start : ℚ := 0.6
  let title := if title_start < t then
      let title_t := min ((t - title_start) / 0.5) 1
      let chars := titleCharsToShow main_title t
      some { titleT := title_t, charsToShow := chars,
             visible := main_title.take chars.toNat,
             titleAlpha := min (title_t * 1.2) 1 }
    else none
  let subtitle_start : ℚ := 0.8
  let subtitleDesc := if subtitle_start < t then
      let subtitle_t := min ((t - subtitle_start) / 0.4) 1
      let words := subtitleWordsToShow subtitle t
      some { subtitleT := subtitle_t, wordsToShow := words,
             visible := String.intercalate " " ((pySplit subtitle).take words.toNat),
             subtitleAlpha := min (subtitle_t * 1.3) 1 }
    else none
  let fgGlow := if 0.5 < t then some (min ((t - 0.5) / 0.4) 0.2) else none
  { t := t, background := create_premium_background t, bar := bar, logo := logo,
    title := title, subtitle := subtitleDesc, fgGlow := fgGlow }

/-- create_frame viewed as a state transformer on the renderer object: the
method body contains no assignment to any self attribute, so the renderer
it leaves behind is the one it received. -/
def create_frame_st (r : DataDashRenderer) (frame_num : ℕ) (duration : ℚ)
    (main_title subtitle : String) : FrameDesc × DataDashRenderer :=
  (create_frame r frame_num duration main_title subtitle, r)

/-- Thread the renderer state through a sequence of create_frame calls and
return the final state. -/
def stateAfter (duration : ℚ) (mt st : String) :
    DataDashRenderer → List ℕ → DataDashRenderer
  | r, [] => r
  | r, n :: rest =>
      stateAfter duration mt st (create_frame_st r n duration mt st).2 rest

/-- Observable side effects of generate_lowerthird on the filesystem and the
cv2 video writer. -/
inductive Event where
  | makedirs (dir : String)
  | openWriter (path : String)
  | writeFrame (f : FrameDesc)
  | release
deriving DecidableEq

/-- Discriminator for frame-write events. -/
def Event.isWrite : Event → Bool
  | .writeFrame _ => true
  | _ => false

/-- The frame loop of generate_lowerthird over a list of frame indices:
each index first runs the fallible frame step (frameFail gives the
exception message, if any); a raise aborts the loop at once, otherwise the
produced frame is written and the loop continues. -/
def renderLoop (r : DataDashRenderer) (duration : ℚ) (mt st : String)
    (frameFail : ℕ → Option String) : List ℕ → Except String Unit × List Event
  | [] => (Except.ok (), [])
  | n :: rest =>
    match frameFail n with
    | some msg => (Except.error msg, [])
    | none =>
      let res := renderLoop r duration mt st frameFail rest
      (res.1, Event.writeFrame (create_frame r n duration mt st) :: res.2)

/-- Result of one generate_lowerthird call: the returned path or the raised
exception message, plus the trace of writer events. -/
structure GenResult where
  result : Except String String
  events : List Event

/-- generate_lowerthird(main_title, subtitle, output_name, duration, style):
computes the output path, builds the renderer, total_frames =
int(duration * fps); constructing the cv2 writer opens (creates or
overwrites) the target; if the writer did not open it raises before the
try block, so no release happens; otherwise the frame loop runs inside
try/except/finally: a loop exception is re-raised wrapped in
"Video generation failed: ", the writer is released on every exit of the
try block, and success returns the output path. -/
def generate_lowerthird (main_title subtitle output_name : String) (duration : ℚ)
    (style : String) (output_dir : String) (writerOpens : Bool)
    (frameFail : ℕ → Option String) : GenResult :=
  let output_path := output_dir ++ "/" ++ output_name ++ ".mp4"
  let r := DataDashRenderer.init style
  let total_frames := pyInt (duration * r.fps)
  if writerOpens = false then
    { result := Except.error ("Failed to create video writer for " ++ output_path),
      events := [Event.makedirs output_dir, Event.openWriter output_path] }
  else
    let body := renderLoop r duration main_title subtitle frameFail
      (List.range total_frames.toNat)
    { result := match body.1 with
        | Except.ok _ => Except.ok output_path
        | Except.error msg => Except.error ("Video generation failed: " ++ msg),
      events := Event.makedirs output_dir :: Event.openWriter output_path ::
        (body.2 ++ [Event.release]) }

/-- total_frames as a function of the duration alone (the renderer's fps is
the constant 30): int(duration * 30). -/
def totalFrames (duration : ℚ) : ℤ := pyInt (duration * 30)

/-! Helper lemmas shared by the claim theorems. -/

/-- On nonnegative arguments Python int() agrees with the floor. -/
theorem pyInt_of_nonneg {q : ℚ} (h : 0 ≤ q) : pyInt q = Int.floor q := by
  rw [pyInt, if_neg (not_lt.mpr h)]

/-- ease_out_quart stays nonnegative on [0, 1]. -/
theorem ease_out_quart_nonneg {t : ℚ} (h0 : 0 ≤ t) (h1 : t ≤ 1) :
    0 ≤ ease_out_quart t := by
  have h2 : (0 : ℚ) ≤ 1 - t := by linarith
  have h3 : (1 - t) ^ 4 ≤ 1 ^ 4 := pow_le_pow_left₀ h2 (by linarith) 4
  have h4 : ease_out_quart t = 1 - (1 - t) ^ 4 := rfl
  rw [h4]
  nlinarith [h3]

/-- ease_out_quart is monotone below 1 (its quartic term shrinks). -/
theorem ease_out_quart_mono {a b : ℚ} (hab : a ≤ b) (hb : b ≤ 1) :
    ease_out_quart a ≤ ease_out_quart b := by
  have h2 : (0 : ℚ) ≤ 1 - b := by linarith
  have h3 : (1 - b) ^ 4 ≤ (1 - a) ^ 4 := pow_le_pow_left₀ h2 (by linarith) 4
  have ha4 : ease_out_quart a = 1 - (1 - a) ^ 4 := rfl
  have hb4 : ease_out_quart b = 1 - (1 - b) ^ 4 := rfl
  rw [ha4, hb4]
  linarith

/-- Threading any list of create_frame calls leaves the renderer unchanged. -/
theorem stateAfter_eq_self (d : ℚ) (mt st : String) (r : DataDashRenderer) :
    ∀ l : List ℕ, stateAfter d mt st r l = r
  | [] => rfl
  | _ :: rest => stateAfter_eq_self d mt st r rest

/-- When no frame step raises, the loop writes one frame per index, in order. -/
theorem renderLoop_all_ok (r : DataDashRenderer) (d : ℚ) (mt st : String)
    (ff : ℕ → Option String) :
    ∀ l : List ℕ, (∀ n ∈ l, ff n = none) →
      renderLoop r d mt st ff l
        = (Except.ok (), l.map fun n => Event.writeFrame (create_frame r n d mt st))
  | [], _ => rfl
  | n :: rest, h => by
      have hn : ff n = none := h n (List.mem_cons_self n rest)
      have hrest := renderLoop_all_ok r d mt st ff rest
        (fun m hm => h m (List.mem_cons_of_mem n hm))
      simp [renderLoop, hn, hrest]

/-- A raise at index k aborts the loop: the indices before k are written and
nothing after k is attempted. -/
theorem renderLoop_first_fail (r : DataDashRenderer) (d : ℚ) (mt st : String)
    (ff : ℕ → Option String) (k : ℕ) (msg : String) (hk : ff k = some msg) :
    ∀ l1 l2 : List ℕ, (∀ n ∈ l1, ff n = none) →
      renderLoop r d mt st ff (l1 ++ k :: l2)
        = (Except.error msg, l1.map fun n => Event.writeFrame (create_frame r n d mt st))
  | [], l2, _ => by simp [renderLoop, hk]
  | n :: rest, l2, h => by
      have hn : ff n = none := h n (List.mem_cons_self n rest)
      have hrest := renderLoop_first_fail r d mt st ff k msg hk rest l2
        (fun m hm => h m (List.mem_cons_of_mem n hm))
      simp [renderLoop, hn, hrest]

/-- Every event the frame loop emits is a frame write. -/
theorem renderLoop_events_isWrite (r : DataDashRenderer) (d : ℚ) (mt st : String)
    (ff : ℕ → Option String) (l : List ℕ) :
    ∀ e ∈ (renderLoop r d mt st ff l).2, e.isWrite = true := by
  induction l with
  | nil => intro e he; simp [renderLoop] at he
  | cons n rest ih =>
      intro e he
      cases hn : ff n with
      | some msg => simp [renderLoop, hn] at he
      | none =>
          simp only [renderLoop, hn] at he
          rcases List.mem_cons.mp he with he | he
          · rw [he]; rfl
          · exact ih e he

/-- Splitting List.range at an interior index. -/
theorem range_split (k N : ℕ) (h : k < N) :
    List.range N
      = List.range k ++ k :: ((List.range (N - (k + 1))).map fun j => (k + 1) + j) := by
  have h1 : N = (k + 1) + (N - (k + 1)) := by omega
  calc List.range N
      = List.range ((k + 1) + (N - (k + 1))) := by rw [← h1]
    _ = List.range (k + 1) ++ (List.range (N - (k + 1))).map ((k + 1) + ·) :=
        List.range_add _ _
    _ = (List.range k ++ [k]) ++ (List.range (N - (k + 1))).map ((k + 1) + ·) := by
        rw [List.range_succ]
    _ = List.range k ++ k :: ((List.range (N - (k + 1))).map fun j => (k + 1) + j) := by
        simp

/-- With the writer open, generate_lowerthird is the frame loop bracketed by
makedirs/open in front and release behind, with loop errors wrapped. -/
theorem generate_lowerthird_open (mt st name sty dir : String) (d : ℚ)
    (ff : ℕ → Option String) :
    generate_lowerthird mt st name d sty dir true ff
      = { result := match (renderLoop (DataDashRenderer.init sty) d mt st ff
              (List.range (totalFrames d).toNat)).1 with
            | Except.ok _ => Except.ok (dir ++ "/" ++ name ++ ".mp4")
            | Except.error msg => Except.error ("Video generation failed: " ++ msg),
          events := Event.makedirs dir
            :: Event.openWriter (dir ++ "/" ++ name ++ ".mp4")
            :: ((renderLoop (DataDashRenderer.init sty) d mt st ff
              (List.range (totalFrames d).toNat)).2 ++ [Event.release]) } := rfl

/-! The claim theorems. -/

/-- C1: with duration = -1 the core generate_lowerthird does NOT fail: it
computes total_frames = int(-1 * 30) = -30, so the frame loop is empty, yet
the cv2 writer is still constructed (creating or overwriting the file at
the computed output path) and the call returns that path as a success.
This contradicts the claim that a non-positive duration fails with an
invalid-input error with no file created or overwritten; the duration
guard exists only in the excluded network layer. -/
theorem C1_negative_duration_not_rejected :
    (generate_lowerthird "DataDash" "Fortinet Community Insights" "demo" (-1)
        "cloud_blue" "/app/outputs" true (fun _ => none)).result
      = Except.ok "/app/outputs/demo.mp4" ∧
    Event.openWriter "/app/outputs/demo.mp4"
      ∈ (generate_lowerthird "DataDash" "Fortinet Community Insights" "demo" (-1)
        "cloud_blue" "/app/outputs" true (fun _ => none)).events ∧
    (generate_lowerthird "DataDash" "Fortinet Community Insights" "demo" (-1)
        "cloud_blue" "/app/outputs" true (fun _ => none)).events.countP
        Event.isWrite = 0 := by
  have htf : totalFrames (-1) = -30 := by norm_num [totalFrames, pyInt]
  rw [generate_lowerthird_open, htf]
  norm_num [renderLoop, Event.isWrite, List.countP_cons]
  exact ⟨rfl, Or.inr (Or.inl rfl)⟩

/-- C2: the last frame of a 4-second render (frame 119 of 120, t = 119/120)
is NOT fully settled: the bar branch requires t ≤ 0.7 so no bar is painted
at all (instead of the claimed full 650-pixel bar), the 10-character title
shows only 9 characters and the 2-word subtitle shows only 1 word (their
reveal windows end at 1.1 and 1.2, past the end of the video); only the
logo has settled at its full opacity 1. -/
theorem C2_last_frame_not_settled :
    (create_frame (DataDashRenderer.init "cloud_blue") 119 4
        "Test Title" "Test Subtitle").bar = none ∧
    "Test Title".length = 10 ∧
    (create_frame (DataDashRenderer.init "cloud_blue") 119 4
        "Test Title" "Test Subtitle").title.map TitleDesc.charsToShow = some 9 ∧
    (pySplit "Test Subtitle").length = 2 ∧
    (create_frame (DataDashRenderer.init "cloud_blue") 119 4
        "Test Title" "Test Subtitle").subtitle.map SubtitleDesc.wordsToShow
      = some 1 ∧
    (create_frame (DataDashRenderer.init "cloud_blue") 119 4
        "Test Title" "Test Subtitle").logo = some (LogoPhase.settle 1) := by
  have hlen : "Test Title".length = 10 := rfl
  have hsub : (pySplit "Test Subtitle").length = 2 := rfl
  refine ⟨?_, hlen, ?_, hsub, ?_, ?_⟩
  all_goals
    norm_num [create_frame, DataDashRenderer.init, pyInt, ease_out_quart,
      titleCharsToShow, subtitleWordsToShow, min_def, hlen, hsub]

/-- C3 counterexample: total_frames is computed with Python int(), which
truncates, not with round-to-nearest: at duration 3.99 the code renders 119
frames while round(3.99 * 30) = 120. -/
theorem C3_counterexample_round :
    totalFrames (399 / 100) = 119 ∧ round ((399 / 100 : ℚ) * 30) = 120 ∧
    totalFrames (399 / 100) ≠ round ((399 / 100 : ℚ) * 30) := by
  have h1 : totalFrames (399 / 100) = 119 := by norm_num [totalFrames, pyInt]
  have h2 : round ((399 / 100 : ℚ) * 30) = 120 := by rw [round_eq]; norm_num
  exact ⟨h1, h2, by rw [h1, h2]; decide⟩

/-- C3 amended: for every positive duration the number of frames rendered
and written equals int(duration * 30), the truncation (= floor, for
positive durations) of duration * 30 — not round-to-nearest; the quoted
examples 4.0 → 120 and 3.0 → 90 are unaffected because there duration * 30
is an integer. For each frame the normalized progress is
t = frame_index / total_frames. -/
theorem C3_total_frames_truncates (d : ℚ) (hd : 0 < d) (mt st name sty dir : String) :
    totalFrames d = Int.floor (d * 30) ∧
    (generate_lowerthird mt st name d sty dir true (fun _ => none)).events.countP
        Event.isWrite = (totalFrames d).toNat ∧
    (∀ i : ℕ, (create_frame (DataDashRenderer.init sty) i d mt st).t
      = (i : ℚ) / ((totalFrames d : ℤ) : ℚ)) := by
  refine ⟨pyInt_of_nonneg (by positivity), ?_, fun i => rfl⟩
  rw [generate_lowerthird_open,
    renderLoop_all_ok (DataDashRenderer.init sty) d mt st (fun _ => none)
      (List.range (totalFrames d).toNat) (fun n _ => rfl)]
  simp [Event.isWrite, List.countP_map, Function.comp_def]

/-- C3 witness: the amended statement at duration 4 with concrete strings. -/
theorem C3_total_frames_witness :
    totalFrames 4 = Int.floor ((4 : ℚ) * 30) ∧
    (generate_lowerthird "DataDash" "Fortinet Community Insights" "demo" 4 "cloud_blue"
        "/app/outputs" true (fun _ => none)).events.countP
        Event.isWrite = (totalFrames 4).toNat ∧
    (∀ i : ℕ, (create_frame (DataDashRenderer.init "cloud_blue") i 4 "DataDash"
        "Fortinet Community Insights").t = (i : ℚ) / ((totalFrames 4 : ℤ) : ℚ)) :=
  C3_total_frames_truncates 4 (by decide) "DataDash" "Fortinet Community Insights"
    "demo" "cloud_blue" "/app/outputs"

/-- C4: frame rendering is deterministic and stateless. create_frame makes
no assignment to the renderer object, so threading the renderer through any
history of prior create_frame calls leaves it unchanged, and the frame
produced for a given (frame index, duration, title, subtitle) is the same
after any two histories — frames can be rendered in any order. -/
theorem C4_create_frame_pure (r : DataDashRenderer) (d : ℚ) (mt st : String)
    (h1 h2 : List ℕ) (n : ℕ) :
    stateAfter d mt st r h1 = r ∧
    create_frame (stateAfter d mt st r h1) n d mt st
      = create_frame (stateAfter d mt st r h2) n d mt st ∧
    (create_frame_st r n d mt st).2 = r := by
  refine ⟨stateAfter_eq_self d mt st r h1, ?_, rfl⟩
  rw [stateAfter_eq_self d mt st r h1, stateAfter_eq_self d mt st r h2]

/-- C5: both easing functions fix the endpoints (0 maps to 0 and 1 to 1)
and are monotone non-decreasing on [0, 1]. -/
theorem C5_easing_endpoints_monotone :
    ease_out_quart 0 = 0 ∧ ease_out_quart 1 = 1 ∧
    ease_in_out_sine 0 = 0 ∧ ease_in_out_sine 1 = 1 ∧
    (∀ t1 t2 : ℚ, 0 ≤ t1 → t1 ≤ t2 → t2 ≤ 1 →
      ease_out_quart t1 ≤ ease_out_quart t2) ∧
    (∀ t1 t2 : ℝ, 0 ≤ t1 → t1 ≤ t2 → t2 ≤ 1 →
      ease_in_out_sine t1 ≤ ease_in_out_sine t2) := by
  refine ⟨by norm_num [ease_out_quart], by norm_num [ease_out_quart], ?_, ?_, ?_, ?_⟩
  · simp [ease_in_out_sine]
  · rw [ease_in_out_sine, mul_one, Real.cos_pi]
    norm_num
  · intro t1 t2 _ h12 h21
    exact ease_out_quart_mono h12 h21
  · intro t1 t2 h0 h12 h21
    have hx : (0 : ℝ) ≤ Real.pi * t1 := mul_nonneg Real.pi_pos.le h0
    have hy : Real.pi * t2 ≤ Real.pi := by
      have := mul_le_mul_of_nonneg_left h21 Real.pi_pos.le
      simpa using this
    have hxy : Real.pi * t1 ≤ Real.pi * t2 :=
      mul_le_mul_of_nonneg_left h12 Real.pi_pos.le
    have hcos := Real.cos_le_cos_of_nonneg_of_le_pi hx hy hxy
    rw [ease_in_out_sine, ease_in_out_sine]
    linarith

/-- C5 witness: the monotonicity parts applied at the endpoints 0 and 1. -/
theorem C5_easing_witness :
    ease_out_quart 0 ≤ ease_out_quart 1 ∧ ease_in_out_sine 0 ≤ ease_in_out_sine 1 :=
  ⟨C5_easing_endpoints_monotone.2.2.2.2.1 0 1 (by decide) (by decide) (by decide),
   C5_easing_endpoints_monotone.2.2.2.2.2 0 1 le_rfl zero_le_one le_rfl⟩

/-- C6: every style identifier outside the four recognized names — the
legacy default value "default" included — resolves to the cloud_blue
palette without failing, the renderer is built with that palette, and
generate_lowerthird succeeds with such a style. -/
theorem C6_unknown_style_default (style mt st name dir : String) (d : ℚ)
    (hstyle : style ∉ ["cloud_blue", "secure_red", "sase_purple", "connectivity_yellow"]) :
    resolveStyle style = cloud_blue ∧
    (DataDashRenderer.init style).current_colors = cloud_blue ∧
    (generate_lowerthird mt st name d style dir true (fun _ => none)).result
      = Except.ok (dir ++ "/" ++ name ++ ".mp4") := by
  obtain ⟨h1, h2, h3, h4⟩ :
      style ≠ "cloud_blue" ∧ style ≠ "secure_red" ∧ style ≠ "sase_purple" ∧
        style ≠ "connectivity_yellow" := by
    simpa using hstyle
  have hres : resolveStyle style = cloud_blue := by
    simp [resolveStyle, colorsTable, List.lookup, beq_eq_false_iff_ne.mpr h1,
      beq_eq_false_iff_ne.mpr h2, beq_eq_false_iff_ne.mpr h3,
      beq_eq_false_iff_ne.mpr h4]
  refine ⟨hres, hres, ?_⟩
  rw [generate_lowerthird_open,
    renderLoop_all_ok (DataDashRenderer.init style) d mt st (fun _ => none)
      (List.range (totalFrames d).toNat) (fun n _ => rfl)]

/-- C6 witness: the style "not_a_style" (and the legacy default parameter
value "default") both fall back to the cloud_blue palette, and rendering
with "not_a_style" succeeds. -/
theorem C6_unknown_style_witness :
    (resolveStyle "not_a_style" = cloud_blue ∧
      (DataDashRenderer.init "not_a_style").current_colors = cloud_blue ∧
      (generate_lowerthird "DataDash" "Fortinet Community Insights" "demo" 4
          "not_a_style" "/app/outputs" true (fun _ => none)).result
        = Except.ok ("/app/outputs" ++ "/" ++ "demo" ++ ".mp4")) ∧
    resolveStyle "default" = cloud_blue :=
  ⟨C6_unknown_style_default "not_a_style" "DataDash" "Fortinet Community Insights"
      "demo" "/app/outputs" 4 (by simp),
    (C6_unknown_style_default "default" "DataDash" "Fortinet Community Insights"
      "demo" "/app/outputs" 4 (by simp)).1⟩

/-- The eased reveal fraction of a window opening at s with width w is
nonnegative once the window has opened. -/
theorem revealFrac_nonneg (s w t : ℚ) (hw : 0 < w) (hst : s ≤ t) :
    0 ≤ ease_out_quart (min ((t - s) / w) 1) := by
  have h0 : 0 ≤ (t - s) / w := div_nonneg (by linarith) hw.le
  exact ease_out_quart_nonneg (le_min h0 zero_le_one) (min_le_right _ _)

/-- The eased reveal fraction is monotone in t. -/
theorem revealFrac_mono (s w t1 t2 : ℚ) (hw : 0 < w) (h12 : t1 ≤ t2) :
    ease_out_quart (min ((t1 - s) / w) 1)
      ≤ ease_out_quart (min ((t2 - s) / w) 1) := by
  have hdiv : (t1 - s) / w ≤ (t2 - s) / w :=
    div_le_div_iff_of_pos_right hw |>.mpr (by linarith)
  exact ease_out_quart_mono (min_le_min hdiv le_rfl) (min_le_right _ _)

/-- The truncated reveal count floor(len * eased fraction) is monotone in t
once the window has opened. -/
theorem revealCount_mono (len : ℕ) (s w t1 t2 : ℚ) (hw : 0 < w) (hst : s ≤ t1)
    (h12 : t1 ≤ t2) :
    pyInt ((len : ℚ) * ease_out_quart (min ((t1 - s) / w) 1))
      ≤ pyInt ((len : ℚ) * ease_out_quart (min ((t2 - s) / w) 1)) := by
  have e1 := revealFrac_nonneg s w t1 hw hst
  have e2 := revealFrac_nonneg s w t2 hw (le_trans hst h12)
  have m := revealFrac_mono s w t1 t2 hw h12
  rw [pyInt_of_nonneg (mul_nonneg (Nat.cast_nonneg len) e1),
    pyInt_of_nonneg (mul_nonneg (Nat.cast_nonneg len) e2)]
  exact Int.floor_mono (mul_le_mul_of_nonneg_left m (Nat.cast_nonneg len))

/-- Inside the window the truncating int() agrees with the floor form. -/
theorem revealCount_floor (len : ℕ) (s w t : ℚ) (hw : 0 < w) (hst : s ≤ t) :
    pyInt ((len : ℚ) * ease_out_quart (min ((t - s) / w) 1))
      = Int.floor ((len : ℚ) * ease_out_quart (min ((t - s) / w) 1)) :=
  pyInt_of_nonneg (mul_nonneg (Nat.cast_nonneg len) (revealFrac_nonneg s w t hw hst))

/-- C7: progressive text reveal is monotonic. Past the title window's start
0.6 the number of revealed title characters is non-decreasing in t and
equals floor(len(title) * eased fraction); past the subtitle window's start
0.8 the number of revealed subtitle words is non-decreasing in t and equals
floor(word_count * eased fraction). -/
theorem C7_reveal_monotone (mt st : String) (t1 t2 : ℚ)
    (hw : (0.6 : ℚ) ≤ t1) (h12 : t1 ≤ t2) :
    titleCharsToShow mt t1 ≤ titleCharsToShow mt t2 ∧
    titleCharsToShow mt t1
      = Int.floor ((mt.length : ℚ) * ease_out_quart (min ((t1 - 0.6) / 0.5) 1)) ∧
    ((0.8 : ℚ) ≤ t1 → subtitleWordsToShow st t1 ≤ subtitleWordsToShow st t2) ∧
    ((0.8 : ℚ) ≤ t1 → subtitleWordsToShow st t1
      = Int.floor (((pySplit st).length : ℚ)
          * ease_out_quart (min ((t1 - 0.8) / 0.4) 1))) := by
  refine ⟨revealCount_mono mt.length 0.6 0.5 t1 t2 (by norm_num) hw h12,
    revealCount_floor mt.length 0.6 0.5 t1 (by norm_num) hw,
    fun hsub => revealCount_mono (pySplit st).length 0.8 0.4 t1 t2 (by norm_num)
      hsub h12,
    fun hsub => revealCount_floor (pySplit st).length 0.8 0.4 t1 (by norm_num) hsub⟩

/-- C7 witness: the reveal counts of "Test Title" and "Test Subtitle" at the
concrete pair of progress values 0.8 and 1. -/
theorem C7_reveal_witness :
    titleCharsToShow "Test Title" 0.8 ≤ titleCharsToShow "Test Title" 1 ∧
    titleCharsToShow "Test Title" 0.8
      = Int.floor (("Test Title".length : ℚ)
          * ease_out_quart (min (((0.8 : ℚ) - 0.6) / 0.5) 1)) ∧
    subtitleWordsToShow "Test Subtitle" 0.8 ≤ subtitleWordsToShow "Test Subtitle" 1 ∧
    subtitleWordsToShow "Test Subtitle" 0.8
      = Int.floor (((pySplit "Test Subtitle").length : ℚ)
          * ease_out_quart (min (((0.8 : ℚ) - 0.8) / 0.4) 1)) := by
  have h := C7_reveal_monotone "Test Title" "Test Subtitle" 0.8 1 (by norm_num)
    (by norm_num)
  exact ⟨h.1, h.2.1, h.2.2.1 (by norm_num), h.2.2.2 (by norm_num)⟩

/-- C8: at frame 0 the progress is t = 0 and every element branch is
dormant: no bar, logo, title, subtitle or foreground glow is painted, the
background wave branch is off, and the only active branch — the pre-reveal
edge glow — has glow_alpha = int(20 * 0/0.8) = 0, so each of its columns is
painted with opacity 0. -/
theorem C8_first_frame_dormant (d : ℚ) (sty mt st : String) :
    (create_frame (DataDashRenderer.init sty) 0 d mt st).t = 0 ∧
    (create_frame (DataDashRenderer.init sty) 0 d mt st).bar = none ∧
    (create_frame (DataDashRenderer.init sty) 0 d mt st).logo = none ∧
    (create_frame (DataDashRenderer.init sty) 0 d mt st).title = none ∧
    (create_frame (DataDashRenderer.init sty) 0 d mt st).subtitle = none ∧
    (create_frame (DataDashRenderer.init sty) 0 d mt st).fgGlow = none ∧
    (create_frame (DataDashRenderer.init sty) 0 d mt st).background.waves = none ∧
    (create_frame (DataDashRenderer.init sty) 0 d mt st).background.edgeGlow
      = some 0 ∧
    (∀ x : ℕ, edgeGlowColumnAlpha 0 x = 0) := by
  refine ⟨?_, ?_, ?_, ?_, ?_, ?_, ?_, ?_, fun x => ?_⟩
  all_goals
    norm_num [create_frame, create_premium_background, pyInt, edgeGlowColumnAlpha]

/-- C9: once the writer has opened, every run of generate_lowerthird —
whatever the frame loop does — releases the writer exactly once, as its
last writer action; and when the first frame failure happens at index k
before the end of the render, the whole render aborts with the single
wrapped error, having written exactly the k frames before k (no retry, no
partial-output salvage). -/
theorem C9_writer_released (mt st name sty dir : String) (d : ℚ)
    (ff : ℕ → Option String) :
    (generate_lowerthird mt st name d sty dir true ff).events.getLast?
      = some Event.release ∧
    (generate_lowerthird mt st name d sty dir true ff).events.count
        Event.release = 1 ∧
    (∀ k msg, (∀ j, j < k → ff j = none) → ff k = some msg →
      k < (totalFrames d).toNat →
      (generate_lowerthird mt st name d sty dir true ff).result
        = Except.error ("Video generation failed: " ++ msg) ∧
      (generate_lowerthird mt st name d sty dir true ff).events.countP
          Event.isWrite = k) := by
  have hev : (generate_lowerthird mt st name d sty dir true ff).events
      = Event.makedirs dir :: Event.openWriter (dir ++ "/" ++ name ++ ".mp4") ::
        ((renderLoop (DataDashRenderer.init sty) d mt st ff
          (List.range (totalFrames d).toNat)).2 ++ [Event.release]) := by
    rw [generate_lowerthird_open]
  have hw := renderLoop_events_isWrite (DataDashRenderer.init sty) d mt st ff
    (List.range (totalFrames d).toNat)
  refine ⟨?_, ?_, ?_⟩
  · rw [hev, ← List.cons_append, ← List.cons_append]
    exact List.getLast?_concat _
  · have hnotmem : Event.release ∉ (renderLoop (DataDashRenderer.init sty) d mt st ff
        (List.range (totalFrames d).toNat)).2 := by
      intro hmem
      have hcontra := hw Event.release hmem
      simp [Event.isWrite] at hcontra
    rw [hev]
    simp [List.count_cons, List.count_append, List.count_eq_zero.mpr hnotmem]
  · intro k msg hbefore hk hkN
    have hloop := renderLoop_first_fail (DataDashRenderer.init sty) d mt st ff k msg hk
      (List.range k)
      ((List.range ((totalFrames d).toNat - (k + 1))).map fun j => (k + 1) + j)
      (fun n hn => hbefore n (List.mem_range.mp hn))
    rw [← range_split k (totalFrames d).toNat hkN] at hloop
    constructor
    · rw [generate_lowerthird_open]
      simp [hloop]
    · rw [hev, hloop]
      simp [Event.isWrite, List.countP_cons, List.countP_append, List.countP_map,
        Function.comp_def]

/-- C9 witness: a render of 120 frames whose frame step raises "boom" at
index 2 aborts with the wrapped error after writing exactly 2 frames. -/
theorem C9_writer_released_witness :
    (generate_lowerthird "DataDash" "Fortinet Community Insights" "demo" 4 "cloud_blue"
        "/app/outputs" true (fun n => if n = 2 then some "boom" else none)).result
      = Except.error ("Video generation failed: " ++ "boom") ∧
    (generate_lowerthird "DataDash" "Fortinet Community Insights" "demo" 4 "cloud_blue"
        "/app/outputs" true (fun n => if n = 2 then some "boom" else none)).events.countP
        Event.isWrite = 2 :=
  (C9_writer_released "DataDash" "Fortinet Community Insights" "demo" "cloud_blue"
      "/app/outputs" 4 (fun n => if n = 2 then some "boom" else none)).2.2 2 "boom"
    (fun j hj => by
      have hj2 : j = 0 ∨ j = 1 := by omega
      rcases hj2 with h | h <;> simp [h])
    rfl
    (by norm_num [totalFrames, pyInt])

/-- C10: for a duration strictly between 0 and 1/30 the computed
total_frames is 0: the frame loop body never runs (so create_frame, and
with it the division by total_frames, is never reached), yet the output
file is still created at the computed path and the call reports success
with that path — a zero-frame video. -/
theorem C10_tiny_duration_zero_frames (d : ℚ) (h0 : 0 < d) (h1 : d < 1 / 30)
    (mt st name sty dir : String) (ff : ℕ → Option String) :
    totalFrames d = 0 ∧
    (generate_lowerthird mt st name d sty dir true ff).result
      = Except.ok (dir ++ "/" ++ name ++ ".mp4") ∧
    (generate_lowerthird mt st name d sty dir true ff).events
      = [Event.makedirs dir, Event.openWriter (dir ++ "/" ++ name ++ ".mp4"),
        Event.release] := by
  have htf : totalFrames d = 0 := by
    rw [totalFrames, pyInt_of_nonneg (by positivity), Int.floor_eq_zero_iff,
      Set.mem_Ico]
    constructor
    · positivity
    · linarith
  refine ⟨htf, ?_, ?_⟩ <;>
    rw [generate_lowerthird_open, htf] <;> simp [renderLoop]

/-- C10 witness: duration 1/60 second gives a successful zero-frame render. -/
theorem C10_tiny_duration_witness :
    totalFrames (1 / 60) = 0 ∧
    (generate_lowerthird "DataDash" "Fortinet Community Insights" "demo" (1 / 60)
        "cloud_blue" "/app/outputs" true (fun _ => none)).result
      = Except.ok ("/app/outputs" ++ "/" ++ "demo" ++ ".mp4") ∧
    (generate_lowerthird "DataDash" "Fortinet Community Insights" "demo" (1 / 60)
        "cloud_blue" "/app/outputs" true (fun _ => none)).events
      = [Event.makedirs "/app/outputs",
        Event.openWriter ("/app/outputs" ++ "/" ++ "demo" ++ ".mp4"),
        Event.release] :=
  C10_tiny_duration_zero_frames (1 / 60) (by norm_num) (by norm_num) "DataDash"
    "Fortinet Community Insights" "demo" "cloud_blue" "/app/outputs" (fun _ => none)

end Lowerthird
